import Mathlib

/-!
Shallow embedding of the StoryQuestPrototype player-progression and
mission-economy core (files `user.py`, `mission_generator.py`,
`character.py`, `character_evolution_service.py`).

Python dictionaries are modelled as insertion-ordered association lists
(`List (String × α)`): assignment updates an existing key in place and
otherwise appends, matching CPython dict semantics.  Python integers are
modelled as `Int` (amounts, balances, XP can be negative in the code).
Timestamps are dropped: no claim depends on them.  Database commits are
modelled by returning the updated records; the `try/except` blocks only
catch storage faults, which the embedding has none of, so the happy path
is the only path (the one genuine runtime error, `math.sqrt` of a
negative argument in `add_experience_points`, is modelled as `Option`).
-/

/-- `dict.get(k)` as on an association list: first binding wins (keys are
unique by construction since `setA` overwrites). -/
def lookupA {α : Type} (m : List (String × α)) (k : String) : Option α :=
  match m with
  | [] => none
  | (k2, v) :: rest => if k2 = k then some v else lookupA rest k

/-- `dict.get(k, d)`. -/
def getA {α : Type} (m : List (String × α)) (k : String) (d : α) : α :=
  (lookupA m k).getD d

/-- `dict[k] = v`: update in place if the key exists, else append
(CPython insertion order). -/
def setA {α : Type} (m : List (String × α)) (k : String) (v : α) : List (String × α) :=
  match m with
  | [] => [(k, v)]
  | (k2, w) :: rest => if k2 = k then (k, v) :: rest else (k2, w) :: setA rest k v

theorem lookupA_setA_self {α : Type} (m : List (String × α)) (k : String) (v : α) :
    lookupA (setA m k v) k = some v := by
  induction m with
  | nil => simp [setA, lookupA]
  | cons p rest ih =>
    by_cases h : p.1 = k
    · simp [setA, lookupA, h]
    · simp [setA, lookupA, h, ih]

theorem lookupA_setA_ne {α : Type} (m : List (String × α)) (k k2 : String) (v : α)
    (h : k2 ≠ k) : lookupA (setA m k v) k2 = lookupA m k2 := by
  have h2 : k ≠ k2 := Ne.symm h
  induction m with
  | nil => simp [setA, lookupA, h2]
  | cons p rest ih =>
    by_cases hp : p.1 = k
    · subst hp
      simp [setA, lookupA, h2]
    · simp only [setA, if_neg hp, lookupA]
      by_cases hp2 : p.1 = k2 <;> simp [hp2, ih]

theorem getA_setA_self (m : List (String × Int)) (k : String) (v : Int) :
    getA (setA m k v) k 0 = v := by
  simp [getA, lookupA_setA_self]

theorem getA_setA_ne (m : List (String × Int)) (k k2 : String) (v : Int)
    (h : k2 ≠ k) : getA (setA m k v) k2 0 = getA m k2 0 := by
  simp [getA, lookupA_setA_ne m k k2 v h]

/-- One row of the `Transaction` model (`currency.py`): the ledger entry
recorded for every `spend_currency` / `add_currency` call. -/
structure Transaction where
  user_id : String
  transaction_type : String
  from_currency : Option String := none
  to_currency : Option String := none
  amount : Int
  description : String
  story_node_id : Option Nat := none
  deriving DecidableEq, Repr

/-- Per-character data kept in `UserProgress.encountered_characters`
(keyed by `str(character_id)`).  The history log keeps `(change, reason)`
pairs; timestamps are dropped. -/
structure EncChar where
  name : String
  relationship_level : Int
  encounters_count : Int
  relationship_history : List (Int × String) := []
  deriving DecidableEq, Repr

/-- The `UserProgress` model (`user.py`), restricted to the fields the
economy/mission/relationship operations touch. -/
structure UserProgress where
  user_id : String
  level : Int := 1
  experience_points : Int := 0
  currency_balances : List (String × Int)
  active_missions : List Nat := []
  completed_missions : List Nat := []
  failed_missions : List Nat := []
  encountered_characters : List (String × EncChar) := []
  deriving DecidableEq, Repr

/-- `UserProgress.can_afford`: true iff every required currency has
balance (absent treated as 0) at least the required amount; the empty
requirement dict is always affordable. -/
def can_afford (p : UserProgress) (currency_requirements : List (String × Int)) : Bool :=
  if currency_requirements.isEmpty then true
  else currency_requirements.all fun ca =>
    !(getA p.currency_balances ca.1 0 < ca.2)

/-- The ledger row `spend_currency` records for one debited currency. -/
def spendTx (uid : String) (ttype : String) (currency : String) (amount : Int)
    (description : String) (story_node_id : Option Nat) : Transaction :=
  { user_id := uid, transaction_type := ttype, from_currency := some currency,
    amount := amount, description := description, story_node_id := story_node_id }

/-- The debit loop inside `spend_currency`: iterate the requirement dict,
subtracting each amount and recording one transaction per currency. -/
def spendLoop (uid ttype description : String) (story_node_id : Option Nat) :
    List (String × Int) → List (String × Int) → List (String × Int) × List Transaction
  | balances, [] => (balances, [])
  | balances, ca :: rest =>
    let balances2 := setA balances ca.1 (getA balances ca.1 0 - ca.2)
    let r := spendLoop uid ttype description story_node_id balances2 rest
    (r.1, spendTx uid ttype ca.1 ca.2 description story_node_id :: r.2)

/-- `UserProgress.spend_currency`: returns the Python boolean result, the
updated player, and the ledger entries appended (empty on failure). -/
def spend_currency (p : UserProgress) (currency_requirements : List (String × Int))
    (transaction_type description : String) (story_node_id : Option Nat := none) :
    Bool × UserProgress × List Transaction :=
  if !(can_afford p currency_requirements) then (false, p, [])
  else
    let r := spendLoop p.user_id transaction_type description story_node_id
      p.currency_balances currency_requirements
    (true, { p with currency_balances := r.1 }, r.2)

/-- `UserProgress.add_currency`: unconditionally adds `amount` to the
balance for `currency` (initialising an absent key from 0) and records
one credit transaction.  The Python method returns `True` on every path
other than a storage fault, which the embedding has none of. -/
def add_currency (p : UserProgress) (currency : String) (amount : Int)
    (transaction_type description : String) : UserProgress × Transaction :=
  let balances2 := setA p.currency_balances currency (getA p.currency_balances currency 0 + amount)
  ({ p with currency_balances := balances2 },
   { user_id := p.user_id, transaction_type := transaction_type,
     to_currency := some currency, amount := amount, description := description })

/-- `UserProgress.change_character_relationship`: fails (returns `false`,
no change) when the character was never encountered; otherwise adds the
delta to the relationship level and, when a reason is given, appends a
history entry. -/
def change_character_relationship (p : UserProgress) (character_id : Nat)
    (change_amount : Int) (reason : Option String) : Bool × UserProgress :=
  match lookupA p.encountered_characters (toString character_id) with
  | none => (false, p)
  | some cd =>
    let cd := { cd with relationship_level := cd.relationship_level + change_amount }
    let cd := match reason with
      | some r => { cd with relationship_history := cd.relationship_history ++ [(change_amount, r)] }
      | none => cd
    let enc2 := setA p.encountered_characters (toString character_id) cd
    (true, { p with encountered_characters := enc2 })

/-- `UserProgress.add_experience_points`.  Python computes
`1 + int(math.sqrt(xp / 100))`; for `xp ≥ 0` this is
`1 + Nat.sqrt (xp / 100)` (floor of a real square root equals the
integer square root of the floor).  For `xp < 0` `math.sqrt` raises,
modelled as `none`.  Returns the updated player, the ledger entries
appended (the level-up bonus, when fired), and the `level_up` boolean. -/
def add_experience_points (p : UserProgress) (points : Int) (reason : Option String := none) :
    Option (UserProgress × List Transaction × Bool) :=
  let xp := p.experience_points + points
  if xp < 0 then none
  else
    let new_level : Int := 1 + (Nat.sqrt (xp.toNat / 100) : Int)
    let p := { p with experience_points := xp }
    let level_up := new_level > p.level
    if level_up then
      let p := { p with level := new_level }
      let level_bonus := 50 * new_level
      let r := add_currency p "💶" level_bonus "level_up"
        ("Level up bonus for reaching level " ++ toString new_level)
      some (r.1, [r.2], true)
    else
      some (p, [], false)

/-- One entry of `Mission.progress_updates` (fields that appear in the
dicts appended by `complete_mission` / `fail_mission`; timestamps
dropped). -/
structure ProgressUpdate where
  progress : Option Int := none
  status : Option String := none
  description : Option String := none
  reason : Option String := none
  deriving DecidableEq, Repr

/-- The `Mission` model, restricted to the fields the lifecycle
operations read or write. -/
structure Mission where
  id : Nat
  user_id : String
  title : String := ""
  giver_id : Option Nat := none
  target_id : Option Nat := none
  difficulty : String := "easy"
  reward_currency : String
  reward_amount : Int
  status : String := "active"
  progress : Int := 0
  progress_updates : List ProgressUpdate := []
  deriving DecidableEq, Repr

/-- The persisted world the lifecycle functions act on: the mission
table, the user-progress table and the transaction (ledger) table. -/
structure GameState where
  missions : List Mission
  users : List UserProgress
  ledger : List Transaction := []
  deriving DecidableEq, Repr

/-- `get_mission_by_id` (`Mission.query.get`). -/
def get_mission_by_id (s : GameState) (mission_id : Nat) : Option Mission :=
  s.missions.find? fun m => m.id == mission_id

/-- `UserProgress.query.filter_by(user_id=...).first()`. -/
def find_user (s : GameState) (user_id : String) : Option UserProgress :=
  s.users.find? fun u => u.user_id == user_id

/-- Write an updated mission row back (same primary key). -/
def setMission (s : GameState) (m : Mission) : GameState :=
  { s with missions := s.missions.map fun x => if x.id == m.id then m else x }

/-- Write an updated user row back (same unique `user_id`). -/
def setUser (s : GameState) (u : UserProgress) : GameState :=
  { s with users := s.users.map fun x => if x.user_id == u.user_id then u else x }

/-- The `xp_rewards` dict in `complete_mission` with its `.get(_, 50)`
default. -/
def xp_reward_for (difficulty : String) : Int :=
  if difficulty = "easy" then 50
  else if difficulty = "medium" then 100
  else if difficulty = "hard" then 200
  else 50

/-- The progress-log entry `complete_mission` appends. -/
def completion_entry : ProgressUpdate :=
  { progress := some 100, status := some "completed",
    description := some "Mission successfully completed!" }

/-- The progress-log entry `fail_mission` appends. -/
def failure_entry (r : Option String) : ProgressUpdate :=
  { status := some "failed", reason := r }

/-- The mission row after `complete_mission`'s status/progress/log
mutations. -/
def completed_mission_row (m : Mission) : Mission :=
  let m := { m with status := "completed", progress := 100 }
  { m with progress_updates := m.progress_updates ++ [completion_entry] }

/-- The user row after `complete_mission`'s mission-set move and direct
balance credit (for which no transaction row is created). -/
def reward_user_row (u : UserProgress) (m : Mission) : UserProgress :=
  let u := { u with active_missions := u.active_missions.erase m.id }
  let u := { u with completed_missions := u.completed_missions ++ [m.id] }
  let balances2 := setA u.currency_balances m.reward_currency
    (getA u.currency_balances m.reward_currency 0 + m.reward_amount)
  { u with currency_balances := balances2 }

/-- The +2 giver relationship delta of `complete_mission`; its boolean
result is discarded by the caller. -/
def apply_giver_relationship (u : UserProgress) (m : Mission) : UserProgress :=
  match m.giver_id with
  | some gid => (change_character_relationship u gid 2
      (some ("Successfully completed mission: " ++ m.title))).2
  | none => u

/-- The −3 target relationship delta of `complete_mission`; its boolean
result is discarded by the caller. -/
def apply_target_relationship (u : UserProgress) (m : Mission) : UserProgress :=
  match m.target_id with
  | some tid => (change_character_relationship u tid (-3)
      (some ("Targeted in mission: " ++ m.title))).2
  | none => u

/-- `complete_mission(mission_id, user_id)`: `none` models the one
uncaught runtime error (negative XP hitting `math.sqrt`); otherwise
`some (returned bool, new state)`.  Mirrors `mission_generator.py`
line by line: early `False` return unless the mission exists and is
`active`; status/progress/log mutation; then, only when a `UserProgress`
row exists: mission-set move, direct balance credit (no transaction row
is created for the reward), XP grant via `add_experience_points`, and
the two relationship deltas whose boolean results are discarded. -/
def complete_mission (s : GameState) (mission_id : Nat) (user_id : String) :
    Option (Bool × GameState) :=
  match get_mission_by_id s mission_id with
  | none => some (false, s)
  | some mission =>
    if mission.status ≠ "active" then some (false, s)
    else
      let mission := completed_mission_row mission
      match find_user s user_id with
      | none => some (true, setMission s mission)
      | some u =>
        let u := reward_user_row u mission
        match add_experience_points u (xp_reward_for mission.difficulty)
            (some ("Completed mission: " ++ mission.title)) with
        | none => none
        | some (u, txs, _) =>
          let u := apply_giver_relationship u mission
          let u := apply_target_relationship u mission
          let s2 := setUser (setMission s mission) u
          some (true, { s2 with ledger := s2.ledger ++ txs })

/-- The mission row after `fail_mission`'s status/log mutations
(`progress` is left untouched). -/
def failed_mission_row (m : Mission) (reason : Option String) : Mission :=
  let m := { m with status := "failed" }
  { m with progress_updates := m.progress_updates ++ [failure_entry reason] }

/-- The user row after `fail_mission`'s mission-set move. -/
def fail_user_row (u : UserProgress) (m : Mission) : UserProgress :=
  let u := { u with active_missions := u.active_missions.erase m.id }
  { u with failed_missions := u.failed_missions ++ [m.id] }

/-- The −1 giver relationship delta of `fail_mission`; its boolean
result is discarded by the caller. -/
def apply_fail_giver_relationship (u : UserProgress) (m : Mission) : UserProgress :=
  match m.giver_id with
  | some gid => (change_character_relationship u gid (-1)
      (some ("Failed mission: " ++ m.title))).2
  | none => u

/-- `fail_mission(mission_id, user_id, reason)`: early `False` return
unless the mission exists and is `active`; sets status `failed` (leaving
`progress` untouched), appends the failure log entry, and when a
`UserProgress` row exists moves the id active→failed and applies the −1
giver relationship delta.  No reward, XP, or ledger write occurs. -/
def fail_mission (s : GameState) (mission_id : Nat) (user_id : String)
    (reason : Option String := none) : Bool × GameState :=
  match get_mission_by_id s mission_id with
  | none => (false, s)
  | some mission =>
    if mission.status ≠ "active" then (false, s)
    else
      let mission := failed_mission_row mission reason
      match find_user s user_id with
      | none => (true, setMission s mission)
      | some u =>
        let u := fail_user_row u mission
        let u := apply_fail_giver_relationship u mission
        (true, setUser (setMission s mission) u)

/-- The `BASE_REWARDS` table of `mission_generator.py`. -/
def BASE_REWARDS : List (String × Int) :=
  [("💎", 1), ("💵", 1500), ("💷", 1400), ("💶", 1450), ("💴", 150000)]

/-- The difficulty auto-assignment in `create_mission_from_story`:
start from `easy`, promote to `medium` when `amount > base * 1.5`, then
promote to `hard` when `amount > base * 2.5`.  The Python float
comparisons are exact for the integer amounts and the five base-reward
constants involved, so they are modelled by the rational comparisons
`2*amount > 3*base` and `2*amount > 5*base`. -/
def assign_difficulty (reward_amount : Int) (base : Int) : String :=
  let difficulty := "easy"
  let difficulty := if 2 * reward_amount > 3 * base then "medium" else difficulty
  let difficulty := if 2 * reward_amount > 5 * base then "hard" else difficulty
  difficulty

/-- One edge of `CharacterEvolution.relationship_network` (timestamp
dropped). -/
structure RelEdge where
  rel_type : String
  strength : Int
  deriving DecidableEq, Repr

/-- The `CharacterEvolution` model (`character.py`), restricted to the
fields the relationship batch update touches.  `relationship_network`
is keyed by `str(target_character_id)`. -/
structure CharacterEvolution where
  character_id : Nat
  relationship_network : List (String × RelEdge) := []
  deriving DecidableEq, Repr

/-- `CharacterEvolution.add_relationship`: upsert (overwrite, not merge)
of the edge keyed by the target id. -/
def add_relationship (ce : CharacterEvolution) (target_key : String)
    (relationship_type : String) (strength : Int) : CharacterEvolution :=
  let net2 := setA ce.relationship_network target_key
    { rel_type := relationship_type, strength := strength }
  { ce with relationship_network := net2 }

/-- One value of the `relationship_changes` dict handed to
`update_character_relationships`; absent dict keys are `none` and take
the `.get` defaults. -/
structure ChangeData where
  change_type : Option String := none
  amount : Option Int := none
  inverse_type : Option String := none
  inverse_amount : Option Int := none
  deriving DecidableEq, Repr

/-- The `_update_relationship` helper acting on the shared `char_map`
store: Python mutates the looked-up `CharacterEvolution` object in
place, so the update is modelled against the map to keep aliasing
(protagonist = target) faithful.  A `from_key` absent from the map is
impossible at the call sites (both are guarded); it is a no-op here. -/
def updateRelInMap (m : List (String × CharacterEvolution)) (from_key to_key : String)
    (rel_type : String) (strength : Int) : List (String × CharacterEvolution) :=
  match lookupA m from_key with
  | some ce => setA m from_key (add_relationship ce to_key rel_type strength)
  | none => m

/-- The body of the `for target_id, change_data in relationship_changes`
loop: skip targets absent from `char_map`; otherwise resolve the
defaults (`type` → `"neutral"`, `amount` → 0, `inverse_type` → `type`,
`inverse_amount` → `amount`), write the protagonist→target edge only
when the protagonist itself is in `char_map`, then write the
target→protagonist edge. -/
def process_change (protagonist_id : Nat) (m : List (String × CharacterEvolution))
    (tc : String × ChangeData) : List (String × CharacterEvolution) :=
  match lookupA m tc.1 with
  | none => m
  | some _ =>
    let rel_type := tc.2.change_type.getD "neutral"
    let strength := (tc.2.amount).getD 0
    let m := if (lookupA m (toString protagonist_id)).isSome then
        updateRelInMap m (toString protagonist_id) tc.1 rel_type strength
      else m
    let inverse_strength := (tc.2.inverse_amount).getD strength
    let inverse_type := tc.2.inverse_type.getD rel_type
    updateRelInMap m tc.1 (toString protagonist_id) inverse_type inverse_strength

/-- `update_character_relationships` (`character_evolution_service.py`):
builds `char_map` keyed by `str(character_id)` (later rows win, as in
the dict comprehension) and folds the per-entry update over the batch.
The Python function returns `True` absent a storage fault; the result
map holds the updated `CharacterEvolution` rows. -/
def update_character_relationships (char_evolutions : List CharacterEvolution)
    (protagonist_id : Nat) (relationship_changes : List (String × ChangeData)) :
    List (String × CharacterEvolution) :=
  let char_map := char_evolutions.foldl
    (fun m ce => setA m (toString ce.character_id) ce) []
  relationship_changes.foldl (process_change protagonist_id) char_map

/-- C7: the difficulty inferred during extraction is a deterministic
function of the reward amount and the per-currency base reward:
hard when `amount > 2.5 * base` (the last check, overriding medium,
which a hard-tier amount also triggers), medium when
`amount > 1.5 * base`, easy otherwise. -/
theorem C7_difficulty_thresholds (reward_amount base : Int) :
    assign_difficulty reward_amount base =
      if 2 * reward_amount > 5 * base then "hard"
      else if 2 * reward_amount > 3 * base then "medium"
      else "easy" := by
  unfold assign_difficulty
  by_cases h5 : 2 * reward_amount > 5 * base <;>
    by_cases h3 : 2 * reward_amount > 3 * base <;>
      simp [h5, h3]

/-- Concrete fixture for C4. -/
def pC4 : UserProgress := { user_id := "u4", currency_balances := [("💵", 100)] }

/-- C4 counterexample: `add_currency` with the non-positive amount −5
does not fail and does not leave the balance unchanged — the balance
drops from 100 to 95 and a ledger entry for −5 is appended, refuting
`fails with InvalidAmount if amount ≤ 0, leaving the balance
unchanged`. -/
theorem C4_counterexample :
    (-5 : Int) ≤ 0 ∧
    getA pC4.currency_balances "💵" 0 = 100 ∧
    getA (add_currency pC4 "💵" (-5) "credit" "d").1.currency_balances "💵" 0 = 95 ∧
    (add_currency pC4 "💵" (-5) "credit" "d").2.amount = -5 := by
  refine ⟨by norm_num, by decide, by decide, by decide⟩

/-- C4 amended: `add_currency` performs no validation of `amount`.  For
every amount (positive or not) it adds `amount` to the balance of
`currency` (absent keys start from 0), leaves every other currency
untouched, and records exactly one credit ledger entry carrying the
currency, amount, type and description. -/
theorem C4_add_currency_no_validation (p : UserProgress) (currency : String)
    (amount : Int) (ttype descr : String) :
    getA (add_currency p currency amount ttype descr).1.currency_balances currency 0
      = getA p.currency_balances currency 0 + amount
    ∧ (∀ c, c ≠ currency →
        getA (add_currency p currency amount ttype descr).1.currency_balances c 0
          = getA p.currency_balances c 0)
    ∧ (add_currency p currency amount ttype descr).2
      = { user_id := p.user_id, transaction_type := ttype, to_currency := some currency,
          amount := amount, description := descr } := by
  refine ⟨?_, ?_, rfl⟩
  · simp [add_currency, getA_setA_self]
  · intro c hc
    simp [add_currency, getA_setA_ne _ _ _ _ hc]

/-- C4 witness: at a concrete input, crediting dollars leaves the pound
balance unchanged. -/
theorem C4_witness :
    getA (add_currency pC4 "💵" 7 "credit" "d").1.currency_balances "💷" 0
      = getA pC4.currency_balances "💷" 0 :=
  (C4_add_currency_no_validation pC4 "💵" 7 "credit" "d").2.1 "💷" (by decide)

/-- Concrete fixture for C5: level 2 is consistent with 100 XP. -/
def pC5 : UserProgress :=
  { user_id := "u5", level := 2, experience_points := 100, currency_balances := [("💵", 100)] }

/-- C5 counterexample: `add_experience_points` with the negative amount
−50 does not fail — it returns normally and decreases
`experience_points` from 100 to 50, refuting `fails with InvalidAmount
whenever points < 0, leaving experiencePoints ... unchanged`. -/
theorem C5_counterexample :
    (-50 : Int) < 0 ∧
    pC5.experience_points = 100 ∧
    (add_experience_points pC5 (-50) none).map (fun r => r.1.experience_points) = some 50 := by
  refine ⟨by norm_num, by decide, by decide⟩

/-- C5 amended: `add_experience_points` performs no validation of
`points`.  Negative points are simply added: whenever the decreased
total stays nonnegative and the stored level is consistent with the
stored XP, the call succeeds, `experiencePoints` drops by `|points|`,
and the level, the balances and the ledger are untouched, with the call
returning `false`. -/
theorem C5_negative_points_accepted (p : UserProgress) (points : Int) (r : Option String)
    (hlvl : p.level = 1 + (Nat.sqrt (p.experience_points.toNat / 100) : Int))
    (hxp : 0 ≤ p.experience_points + points) (hneg : points < 0) :
    add_experience_points p points r
      = some ({ p with experience_points := p.experience_points + points }, [], false) := by
  have hle : p.experience_points + points ≤ p.experience_points := by omega
  have hsq : Nat.sqrt ((p.experience_points + points).toNat / 100)
      ≤ Nat.sqrt (p.experience_points.toNat / 100) :=
    Nat.sqrt_le_sqrt (Nat.div_le_div_right (Int.toNat_le_toNat hle))
  have hnl : ¬ (1 + (Nat.sqrt ((p.experience_points + points).toNat / 100) : Int) > p.level) := by
    rw [hlvl]
    omega
  simp only [add_experience_points, if_neg (not_lt.mpr hxp), hnl, if_false, gt_iff_lt]

/-- C5 witness: the amended statement at the concrete fixture. -/
theorem C5_witness :
    add_experience_points pC5 (-50) none
      = some ({ pC5 with experience_points := 50 }, [], false) :=
  C5_negative_points_accepted pC5 (-50) none (by decide) (by decide) (by decide)

/-- The conclusion of C6, as a named predicate: after the call the level
equals `1 + floor (sqrt (xp / 100))` for the settled XP, the level never
decreases, the returned boolean is true exactly when the level
increased, and an increase fires exactly one `level_up` bonus of
`50 * newLevel` in the fixed currency `"💶"` while no increase leaves
balances and ledger untouched. -/
def LevelingSpec (p : UserProgress) (points : Int) (r : Option String) : Prop :=
  ∃ p2 txs lvl, add_experience_points p points r = some (p2, txs, lvl)
    ∧ p2.experience_points = p.experience_points + points
    ∧ p2.level = 1 + (Nat.sqrt (p2.experience_points.toNat / 100) : Int)
    ∧ p.level ≤ p2.level
    ∧ (lvl = true ↔ p.level < p2.level)
    ∧ (lvl = true →
        txs = [{ user_id := p.user_id, transaction_type := "level_up",
                 to_currency := some "💶", amount := 50 * p2.level,
                 description := "Level up bonus for reaching level " ++ toString p2.level }]
        ∧ getA p2.currency_balances "💶" 0 = getA p.currency_balances "💶" 0 + 50 * p2.level)
    ∧ (lvl = false → txs = [] ∧ p2.currency_balances = p.currency_balances
        ∧ p2.level = p.level)

/-- C6: for a player whose level is consistent with their XP, adding
`points ≥ 0` experience settles the level at
`1 + floor (sqrt (experiencePoints / 100))`, never decreases it, fires
exactly one `level_up` bonus of `50 * newLevel` in the fixed currency
when (and only when) the level increased, and returns true exactly in
that case. -/
theorem C6_leveling (p : UserProgress) (points : Int) (r : Option String)
    (hxp0 : 0 ≤ p.experience_points) (hpts : 0 ≤ points)
    (hlvl : p.level = 1 + (Nat.sqrt (p.experience_points.toNat / 100) : Int)) :
    LevelingSpec p points r := by
  have hxp : ¬ (p.experience_points + points < 0) := by omega
  have hmono : Nat.sqrt (p.experience_points.toNat / 100)
      ≤ Nat.sqrt ((p.experience_points + points).toNat / 100) :=
    Nat.sqrt_le_sqrt (Nat.div_le_div_right (Int.toNat_le_toNat (by omega)))
  unfold LevelingSpec
  unfold add_experience_points
  simp only [if_neg hxp, gt_iff_lt]
  by_cases hgt : p.level < 1 + (Nat.sqrt ((p.experience_points + points).toNat / 100) : Int)
  · simp only [if_pos hgt]
    refine ⟨_, _, _, rfl, rfl, rfl, ?_, ?_, ?_, ?_⟩
    · exact le_of_lt hgt
    · simpa using hgt
    · intro _
      constructor
      · rfl
      · simp [add_currency, getA_setA_self]
    · intro h
      exact Bool.noConfusion h
  · simp only [if_neg hgt]
    have heq : p.level = 1 + (Nat.sqrt ((p.experience_points + points).toNat / 100) : Int) := by
      rw [hlvl]
      omega
    refine ⟨_, _, _, rfl, rfl, ?_, le_refl _, ?_, ?_, ?_⟩
    · exact heq
    · simp
    · intro h
      exact Bool.noConfusion h
    · intro _
      exact ⟨rfl, rfl, rfl⟩

/-- Concrete fixture for C6: fresh level-1 player. -/
def pC6 : UserProgress := { user_id := "u6", currency_balances := [("💶", 0)] }

/-- C6 witness: granting 100 XP to a fresh level-1 player satisfies the
leveling specification. -/
theorem C6_witness : LevelingSpec pC6 100 none :=
  C6_leveling pC6 100 none (by decide) (by decide) (by decide)

/-- The debit loop of `spend_currency`, run over a requirement dict with
pairwise-distinct keys: each required currency ends exactly its amount
lower, every other currency is untouched, and one transaction is
recorded per requirement, in order. -/
theorem spendLoop_spec (uid ttype descr : String) (nid : Option Nat)
    (reqs : List (String × Int)) (balances : List (String × Int))
    (hnd : (reqs.map Prod.fst).Nodup) :
    (∀ ca ∈ reqs, getA (spendLoop uid ttype descr nid balances reqs).1 ca.1 0
        = getA balances ca.1 0 - ca.2)
    ∧ (∀ c, c ∉ reqs.map Prod.fst →
        getA (spendLoop uid ttype descr nid balances reqs).1 c 0 = getA balances c 0)
    ∧ (spendLoop uid ttype descr nid balances reqs).2
      = reqs.map fun ca => spendTx uid ttype ca.1 ca.2 descr nid := by
  induction reqs generalizing balances with
  | nil => exact ⟨by simp, fun c _ => by simp [spendLoop], by simp [spendLoop]⟩
  | cons ca rest ih =>
    simp only [List.map_cons, List.nodup_cons] at hnd
    obtain ⟨hca, hrest⟩ := hnd
    obtain ⟨ih1, ih2, ih3⟩ := ih (setA balances ca.1 (getA balances ca.1 0 - ca.2)) hrest
    refine ⟨?_, ?_, ?_⟩
    · intro cb hcb
      rcases List.mem_cons.mp hcb with h | h
      · subst h
        rw [show (spendLoop uid ttype descr nid balances (cb :: rest)).1
            = (spendLoop uid ttype descr nid
                (setA balances cb.1 (getA balances cb.1 0 - cb.2)) rest).1 from rfl]
        rw [ih2 cb.1 hca, getA_setA_self]
      · have hne : cb.1 ≠ ca.1 := by
          intro he
          exact hca (he ▸ List.mem_map_of_mem Prod.fst h)
        rw [show (spendLoop uid ttype descr nid balances (ca :: rest)).1
            = (spendLoop uid ttype descr nid
                (setA balances ca.1 (getA balances ca.1 0 - ca.2)) rest).1 from rfl]
        rw [ih1 cb h, getA_setA_ne _ _ _ _ hne]
    · intro c hc
      simp only [List.map_cons, List.mem_cons, not_or] at hc
      obtain ⟨hc1, hc2⟩ := hc
      rw [show (spendLoop uid ttype descr nid balances (ca :: rest)).1
          = (spendLoop uid ttype descr nid
              (setA balances ca.1 (getA balances ca.1 0 - ca.2)) rest).1 from rfl]
      rw [ih2 c hc2, getA_setA_ne _ _ _ _ hc1]
    · rw [show (spendLoop uid ttype descr nid balances (ca :: rest)).2
          = spendTx uid ttype ca.1 ca.2 descr nid :: (spendLoop uid ttype descr nid
              (setA balances ca.1 (getA balances ca.1 0 - ca.2)) rest).2 from rfl]
      rw [ih3, List.map_cons]

/-- `can_afford` succeeds exactly when no requirement exceeds the
corresponding balance (absent treated as 0). -/
theorem can_afford_true_iff (p : UserProgress) (reqs : List (String × Int)) :
    can_afford p reqs = true ↔
      ∀ ca ∈ reqs, ¬ (getA p.currency_balances ca.1 0 < ca.2) := by
  unfold can_afford
  by_cases he : reqs.isEmpty
  · rw [if_pos he]
    rcases reqs with _ | ⟨ca, rest⟩
    · simp
    · simp [List.isEmpty] at he
  · rw [if_neg he, List.all_eq_true]
    constructor
    · intro h ca hca
      simpa using h ca hca
    · intro h ca hca
      simpa using h ca hca

/-- `can_afford` fails exactly when some requirement exceeds the
corresponding balance (absent treated as 0). -/
theorem can_afford_false_iff (p : UserProgress) (reqs : List (String × Int)) :
    can_afford p reqs = false ↔
      ∃ ca ∈ reqs, getA p.currency_balances ca.1 0 < ca.2 := by
  rw [Bool.eq_false_iff, Ne, can_afford_true_iff]
  push_neg
  rfl

/-- C3: `spend_currency` fails exactly when some required currency has
balance (absent treated as 0) below its requirement; on failure nothing
changes and no ledger entry is appended; on success (for a requirement
dict, whose keys are distinct) every required currency is debited by
exactly its amount, every other currency is untouched, and exactly one
ledger entry is appended per debited currency. -/
theorem C3_spend_currency_correct (p : UserProgress) (reqs : List (String × Int))
    (ttype descr : String) (nid : Option Nat)
    (hnd : (reqs.map Prod.fst).Nodup) :
    ((spend_currency p reqs ttype descr nid).1 = false ↔
        ∃ ca ∈ reqs, getA p.currency_balances ca.1 0 < ca.2)
    ∧ ((spend_currency p reqs ttype descr nid).1 = false →
        spend_currency p reqs ttype descr nid = (false, p, []))
    ∧ ((spend_currency p reqs ttype descr nid).1 = true →
        (∀ ca ∈ reqs,
            getA (spend_currency p reqs ttype descr nid).2.1.currency_balances ca.1 0
              = getA p.currency_balances ca.1 0 - ca.2)
        ∧ (∀ c, c ∉ reqs.map Prod.fst →
            getA (spend_currency p reqs ttype descr nid).2.1.currency_balances c 0
              = getA p.currency_balances c 0)
        ∧ (spend_currency p reqs ttype descr nid).2.2
            = reqs.map fun ca => spendTx p.user_id ttype ca.1 ca.2 descr nid) := by
  obtain ⟨l1, l2, l3⟩ := spendLoop_spec p.user_id ttype descr nid reqs p.currency_balances hnd
  by_cases hca : can_afford p reqs = true
  · have hne : ¬ ∃ ca ∈ reqs, getA p.currency_balances ca.1 0 < ca.2 := by
      rw [← can_afford_false_iff]
      simp [hca]
    simp only [spend_currency, hca, Bool.not_true, Bool.false_eq_true, if_false]
    exact ⟨by simp [hne], by simp, fun _ => ⟨l1, l2, l3⟩⟩
  · have hf : can_afford p reqs = false := by simpa using hca
    have hex : ∃ ca ∈ reqs, getA p.currency_balances ca.1 0 < ca.2 :=
      (can_afford_false_iff p reqs).mp hf
    simp only [spend_currency, hf, Bool.not_false, if_true]
    exact ⟨by simp [hex], by simp, by simp⟩

/-- Concrete fixture for C3. -/
def pC3 : UserProgress := { user_id := "u3", currency_balances := [("💵", 500)] }

/-- C3 witness: spending 600 dollars against a balance of 500 fails and
leaves the player and the ledger untouched. -/
theorem C3_witness :
    spend_currency pC3 [("💵", 600)] "choice_cost" "d" none = (false, pC3, []) :=
  ((C3_spend_currency_correct pC3 [("💵", 600)] "choice_cost" "d" none
      (by decide)).2.1) (by decide)

/-- Replacing the mission row whose id was found leaves it findable with
its new value. -/
theorem find_replace_mission (l : List Mission) (m : Mission) (mid : Nat)
    (hid : m.id = mid)
    (hsome : (l.find? fun x => x.id == mid).isSome) :
    ((l.map fun x => if x.id == m.id then m else x).find? fun x => x.id == mid)
      = some m := by
  subst hid
  induction l with
  | nil => simp at hsome
  | cons a rest ih =>
    by_cases ha : a.id = m.id
    · rw [List.map_cons, if_pos (by simpa using ha)]
      rw [List.find?_cons_of_pos _ (by simp)]
    · rw [List.map_cons, if_neg (by simpa using ha)]
      rw [List.find?_cons_of_neg _ (by simpa using ha)]
      refine ih ?_
      rwa [List.find?_cons_of_neg _ (by simpa using ha)] at hsome

/-- `get_mission_by_id` after `setMission`, when the id was present. -/
theorem get_mission_setMission (s : GameState) (m m0 : Mission) (mid : Nat)
    (hid : m.id = mid) (h : get_mission_by_id s mid = some m0) :
    get_mission_by_id (setMission s m) mid = some m := by
  unfold get_mission_by_id at h ⊢
  unfold setMission
  refine find_replace_mission s.missions m mid hid ?_
  rw [h]
  rfl

/-- A found mission has the id it was looked up by. -/
theorem get_mission_id (s : GameState) (mid : Nat) (m : Mission)
    (h : get_mission_by_id s mid = some m) : m.id = mid := by
  unfold get_mission_by_id at h
  have := List.find?_some h
  simpa using this

/-- A successful `complete_mission` leaves the mission findable with
status `completed` (and hence no longer `active`). -/
theorem complete_mission_success_status (s : GameState) (mid : Nat) (uid : String)
    (s2 : GameState) (h : complete_mission s mid uid = some (true, s2)) :
    ∃ m2, get_mission_by_id s2 mid = some m2 ∧ m2.status = "completed" := by
  rw [complete_mission] at h
  split at h
  · simp at h
  · rename_i m hm
    split at h
    · simp at h
    · split at h
      · simp only [Option.some.injEq, Prod.mk.injEq, true_and] at h
        subst h
        exact ⟨_, get_mission_setMission s _ m mid (get_mission_id s mid m hm) hm, rfl⟩
      · dsimp only [] at h
        split at h
        · exact absurd h (by simp)
        · simp only [Option.some.injEq, Prod.mk.injEq, true_and] at h
          subst h
          exact ⟨_, get_mission_setMission s _ m mid (get_mission_id s mid m hm) hm, rfl⟩

/-- A successful `fail_mission` leaves the mission findable with status
`failed` (and hence no longer `active`). -/
theorem fail_mission_success_status (s : GameState) (mid : Nat) (uid : String)
    (r : Option String) (s2 : GameState) (h : fail_mission s mid uid r = (true, s2)) :
    ∃ m2, get_mission_by_id s2 mid = some m2 ∧ m2.status = "failed" := by
  rw [fail_mission] at h
  split at h
  · simp at h
  · rename_i m hm
    split at h
    · simp at h
    · split at h
      · simp only [Prod.mk.injEq, true_and] at h
        subst h
        exact ⟨_, get_mission_setMission s _ m mid (get_mission_id s mid m hm) hm, rfl⟩
      · dsimp only [] at h
        simp only [Prod.mk.injEq, true_and] at h
        subst h
        exact ⟨_, get_mission_setMission s _ m mid (get_mission_id s mid m hm) hm, rfl⟩

/-- C8: a mission that is not `active` is frozen: `complete_mission` and
`fail_mission` return failure and change nothing, so a second call after
a successful completion or failure is a pure no-op — no ledger entries,
XP, relationship changes or mission-set moves — and status transitions
leave `active` only once. -/
theorem C8_terminal_missions_frozen (s : GameState) (mid : Nat) (uid : String)
    (r : Option String) :
    (∀ m, get_mission_by_id s mid = some m → m.status ≠ "active" →
        complete_mission s mid uid = some (false, s)
        ∧ fail_mission s mid uid r = (false, s))
    ∧ (∀ s2, complete_mission s mid uid = some (true, s2) →
        complete_mission s2 mid uid = some (false, s2)
        ∧ fail_mission s2 mid uid r = (false, s2))
    ∧ (∀ s2, fail_mission s mid uid r = (true, s2) →
        complete_mission s2 mid uid = some (false, s2)
        ∧ fail_mission s2 mid uid r = (false, s2)) := by
  have base : ∀ (t : GameState) m, get_mission_by_id t mid = some m →
      m.status ≠ "active" →
      complete_mission t mid uid = some (false, t)
      ∧ fail_mission t mid uid r = (false, t) := by
    intro t m hm hst
    constructor
    · rw [complete_mission, hm]
      dsimp only []
      rw [if_pos hst]
    · rw [fail_mission, hm]
      dsimp only []
      rw [if_pos hst]
  refine ⟨fun m hm hst => base s m hm hst, ?_, ?_⟩
  · intro s2 h
    obtain ⟨m2, hm2, hst2⟩ := complete_mission_success_status s mid uid s2 h
    exact base s2 m2 hm2 (by rw [hst2]; decide)
  · intro s2 h
    obtain ⟨m2, hm2, hst2⟩ := fail_mission_success_status s mid uid r s2 h
    exact base s2 m2 hm2 (by rw [hst2]; decide)

/-- Concrete fixtures for C8: an already-completed mission. -/
def mC8 : Mission :=
  { id := 8, user_id := "u8", reward_currency := "💵", reward_amount := 1,
    status := "completed" }

/-- Concrete game state for C8. -/
def sC8 : GameState := { missions := [mC8], users := [] }

/-- C8 witness: completing or failing an already-completed mission
returns failure and leaves the state untouched. -/
theorem C8_witness :
    complete_mission sC8 8 "u8" = some (false, sC8)
    ∧ fail_mission sC8 8 "u8" none = (false, sC8) :=
  (C8_terminal_missions_frozen sC8 8 "u8" none).1 mC8 (by decide) (by decide)

/-- The conclusion of C10, as a named predicate: the completion call
succeeds and marks the mission completed with progress 100, the failure
call succeeds and marks it failed, and in both cases the user table and
the ledger are untouched. -/
def MissingUserSpec (s : GameState) (mid : Nat) (uid : String) (r : Option String) : Prop :=
  (∃ s2, complete_mission s mid uid = some (true, s2)
    ∧ s2.users = s.users ∧ s2.ledger = s.ledger
    ∧ ∃ m2, get_mission_by_id s2 mid = some m2
        ∧ m2.status = "completed" ∧ m2.progress = 100)
  ∧ (∃ s3, fail_mission s mid uid r = (true, s3)
    ∧ s3.users = s.users ∧ s3.ledger = s.ledger
    ∧ ∃ m3, get_mission_by_id s3 mid = some m3 ∧ m3.status = "failed")

/-- C10: when no `UserProgress` row exists for the user but the mission
exists and is `active`, `complete_mission` still returns success, sets
status `completed` and progress 100, and `fail_mission` still returns
success and sets status `failed`, while every player-side effect
(currency, XP, relationships, mission-set moves, ledger) is silently
skipped: the user table and the ledger are unchanged. -/
theorem C10_no_player_record (s : GameState) (mid : Nat) (uid : String)
    (r : Option String) (m : Mission) (hm : get_mission_by_id s mid = some m)
    (hact : m.status = "active") (hu : find_user s uid = none) :
    MissingUserSpec s mid uid r := by
  have hst : ¬ (m.status ≠ "active") := by simp [hact]
  have hcm : complete_mission s mid uid = some (true, setMission s
      { m with
        status := "completed", progress := 100,
        progress_updates := m.progress_updates ++ [completion_entry] }) := by
    rw [complete_mission]
    split
    · rename_i hnone
      rw [hm] at hnone
      exact absurd hnone (by simp)
    · rename_i m2 hm2
      rw [hm] at hm2
      injection hm2 with hmeq
      subst hmeq
      rw [if_neg hst]
      split
      · rfl
      · rename_i u hu2
        rw [hu] at hu2
        exact absurd hu2 (by simp)
  have hfm : fail_mission s mid uid r = (true, setMission s
      { m with
        status := "failed",
        progress_updates := m.progress_updates ++ [failure_entry r] }) := by
    rw [fail_mission]
    split
    · rename_i hnone
      rw [hm] at hnone
      exact absurd hnone (by simp)
    · rename_i m2 hm2
      rw [hm] at hm2
      injection hm2 with hmeq
      subst hmeq
      rw [if_neg hst]
      split
      · rfl
      · rename_i u hu2
        rw [hu] at hu2
        exact absurd hu2 (by simp)
  constructor
  · exact ⟨_, hcm, rfl, rfl,
      ⟨_, get_mission_setMission s _ m mid (get_mission_id s mid m hm) hm, rfl, rfl⟩⟩
  · exact ⟨_, hfm, rfl, rfl,
      ⟨_, get_mission_setMission s _ m mid (get_mission_id s mid m hm) hm, rfl⟩⟩

/-- Concrete fixtures for C10: an active mission owned by a user id with
no `UserProgress` row. -/
def mC10 : Mission := { id := 10, user_id := "ghost", reward_currency := "💵", reward_amount := 5 }

/-- Concrete game state for C10. -/
def sC10 : GameState := { missions := [mC10], users := [] }

/-- C10 witness: the missing-user behaviour at a concrete state with an
empty user table. -/
theorem C10_witness : MissingUserSpec sC10 10 "ghost" none :=
  C10_no_player_record sC10 10 "ghost" none mC10 (by decide) (by decide) (by decide)

/-- The per-difficulty XP reward is never negative. -/
theorem xp_reward_nonneg (difficulty : String) : 0 ≤ xp_reward_for difficulty := by
  unfold xp_reward_for
  split_ifs <;> norm_num

/-- `add_experience_points` only crashes when the settled XP is
negative. -/
theorem add_experience_points_ne_none (p : UserProgress) (points : Int)
    (r : Option String) (h : 0 ≤ p.experience_points + points) :
    add_experience_points p points r ≠ none := by
  rw [add_experience_points]
  rw [if_neg (not_lt.mpr h)]
  dsimp only []
  split <;> simp

/-- Frame conditions of `add_experience_points`: whatever leveling does,
it only touches `experience_points`, `level` and the `"💶"` balance. -/
theorem add_experience_points_frame (p p2 : UserProgress) (points : Int)
    (r : Option String) (txs : List Transaction) (lvl : Bool)
    (h : add_experience_points p points r = some (p2, txs, lvl)) :
    p2.encountered_characters = p.encountered_characters
    ∧ p2.user_id = p.user_id
    ∧ p2.experience_points = p.experience_points + points
    ∧ ∀ c, c ≠ "💶" → getA p2.currency_balances c 0 = getA p.currency_balances c 0 := by
  rw [add_experience_points] at h
  split at h
  · simp at h
  · dsimp only [] at h
    split at h
    · simp only [Option.some.injEq, Prod.mk.injEq] at h
      obtain ⟨hp2, htxs, hlvl⟩ := h
      subst hp2
      refine ⟨rfl, rfl, rfl, ?_⟩
      intro c hc
      exact getA_setA_ne _ _ _ _ hc
    · simp only [Option.some.injEq, Prod.mk.injEq] at h
      obtain ⟨hp2, htxs, hlvl⟩ := h
      subst hp2
      exact ⟨rfl, rfl, rfl, fun c hc => rfl⟩

/-- A relationship change for a character the player never encountered
fails and changes nothing. -/
theorem change_character_relationship_not_found (p : UserProgress) (cid : Nat)
    (d : Int) (r : Option String)
    (h : lookupA p.encountered_characters (toString cid) = none) :
    change_character_relationship p cid d r = (false, p) := by
  unfold change_character_relationship
  rw [h]

/-- The +2 giver delta of `complete_mission` is silently skipped when the
giver was never encountered. -/
theorem apply_giver_relationship_skip (p : UserProgress) (m : Mission)
    (h : ∀ gid, m.giver_id = some gid →
        lookupA p.encountered_characters (toString gid) = none) :
    apply_giver_relationship p m = p := by
  unfold apply_giver_relationship
  split
  · rename_i gid hg
    rw [change_character_relationship_not_found _ _ _ _ (h gid hg)]
  · rfl

/-- The −3 target delta of `complete_mission` is silently skipped when
the target was never encountered. -/
theorem apply_target_relationship_skip (p : UserProgress) (m : Mission)
    (h : ∀ tid, m.target_id = some tid →
        lookupA p.encountered_characters (toString tid) = none) :
    apply_target_relationship p m = p := by
  unfold apply_target_relationship
  split
  · rename_i tid ht
    rw [change_character_relationship_not_found _ _ _ _ (h tid ht)]
  · rfl

/-- Replacing the user row whose id was found leaves it findable with
its new value. -/
theorem find_replace_user (l : List UserProgress) (u : UserProgress) (uid : String)
    (hid : u.user_id = uid)
    (hsome : (l.find? fun x => x.user_id == uid).isSome) :
    ((l.map fun x => if x.user_id == u.user_id then u else x).find?
        fun x => x.user_id == uid) = some u := by
  subst hid
  induction l with
  | nil => simp at hsome
  | cons a rest ih =>
    by_cases ha : a.user_id = u.user_id
    · rw [List.map_cons, if_pos (by simpa using ha)]
      rw [List.find?_cons_of_pos _ (by simp)]
    · rw [List.map_cons, if_neg (by simpa using ha)]
      rw [List.find?_cons_of_neg _ (by simpa using ha)]
      refine ih ?_
      rwa [List.find?_cons_of_neg _ (by simpa using ha)] at hsome

/-- `find_user` after `setUser`, when the user id was present. -/
theorem find_user_setUser (t : GameState) (unew u0 : UserProgress) (uid : String)
    (hid : unew.user_id = uid) (h : find_user t uid = some u0) :
    find_user (setUser t unew) uid = some unew := by
  unfold find_user at h ⊢
  unfold setUser
  refine find_replace_user t.users unew uid hid ?_
  rw [h]
  rfl

/-- A found user row carries the id it was looked up by. -/
theorem find_user_uid (s : GameState) (uid : String) (u : UserProgress)
    (h : find_user s uid = some u) : u.user_id = uid := by
  unfold find_user at h
  have := List.find?_some h
  simpa using this

/-- The conclusion of the amended C2, as a named predicate: completion
succeeds and its status change, direct currency credit and XP grant all
persist, while the player's encountered-character map ends unchanged
(the relationship sub-steps having been skipped). -/
def BestEffortCompletionSpec (s : GameState) (mid : Nat) (uid : String)
    (m : Mission) (u : UserProgress) : Prop :=
  ∃ s2, complete_mission s mid uid = some (true, s2)
    ∧ (get_mission_by_id s2 mid).map Mission.status = some "completed"
    ∧ ∃ u2, find_user s2 uid = some u2
        ∧ getA u2.currency_balances m.reward_currency 0
            = getA u.currency_balances m.reward_currency 0 + m.reward_amount
        ∧ u2.experience_points = u.experience_points + xp_reward_for m.difficulty
        ∧ u2.encountered_characters = u.encountered_characters

/-- C2 amended: `complete_mission` applies its sub-effects sequentially
and best-effort, not atomically: when the mission's giver and target
were never encountered by the player, their relationship deltas cannot
be applied (the sub-step returns failure) yet the completion does not
abort — the call returns success, the status change, the currency
credit and the XP grant all persist, and the encountered-character map
is simply left unchanged.  (Stated away from the fixed level-up bonus
currency so the credit is isolated from a possible level-up bonus.) -/
theorem C2_completion_best_effort (s : GameState) (mid : Nat) (uid : String)
    (m : Mission) (u : UserProgress)
    (hm : get_mission_by_id s mid = some m) (hact : m.status = "active")
    (hu : find_user s uid = some u) (hxp : 0 ≤ u.experience_points)
    (hgiver : ∀ gid, m.giver_id = some gid →
        lookupA u.encountered_characters (toString gid) = none)
    (htarget : ∀ tid, m.target_id = some tid →
        lookupA u.encountered_characters (toString tid) = none)
    (hcur : m.reward_currency ≠ "💶") :
    BestEffortCompletionSpec s mid uid m u := by
  have hst : ¬ (m.status ≠ "active") := by simp [hact]
  have hxq : (0 : Int) ≤ u.experience_points + xp_reward_for m.difficulty :=
    add_nonneg hxp (xp_reward_nonneg _)
  rcases hres : add_experience_points (reward_user_row u (completed_mission_row m))
      (xp_reward_for (completed_mission_row m).difficulty)
      (some ("Completed mission: " ++ (completed_mission_row m).title)) with _ | res
  · exact absurd hres (add_experience_points_ne_none _ _ _ hxq)
  · obtain ⟨u4, txs, lvl⟩ := res
    obtain ⟨henc, huid, hxp4, hbal⟩ := add_experience_points_frame _ _ _ _ _ _ hres
    have henc2 : u4.encountered_characters = u.encountered_characters := henc
    have hskipg : apply_giver_relationship u4 (completed_mission_row m) = u4 :=
      apply_giver_relationship_skip u4 (completed_mission_row m)
        (fun gid hg => henc2 ▸ hgiver gid hg)
    have hskipt : apply_target_relationship u4 (completed_mission_row m) = u4 :=
      apply_target_relationship_skip u4 (completed_mission_row m)
        (fun tid ht => henc2 ▸ htarget tid ht)
    have hcm : complete_mission s mid uid = some (true,
        { setUser (setMission s (completed_mission_row m)) u4 with
          ledger := s.ledger ++ txs }) := by
      rw [complete_mission]
      split
      · rename_i hnone
        rw [hm] at hnone
        exact absurd hnone (by simp)
      · rename_i m2 hm2
        rw [hm] at hm2
        injection hm2 with hmeq
        subst hmeq
        rw [if_neg hst]
        split
        · rename_i hu2
          rw [hu] at hu2
          exact absurd hu2 (by simp)
        · rename_i u2 hu2
          rw [hu] at hu2
          injection hu2 with hueq
          subst hueq
          dsimp only []
          rw [hres]
          dsimp only []
          rw [hskipg, hskipt]
          rfl
    refine ⟨_, hcm, ?_, ⟨u4, ?_, ?_, hxp4, henc2⟩⟩
    · show (get_mission_by_id (setMission s (completed_mission_row m)) mid).map
        Mission.status = some "completed"
      rw [get_mission_setMission s (completed_mission_row m) m mid
        (get_mission_id s mid m hm) hm]
      rfl
    · show find_user (setUser (setMission s (completed_mission_row m)) u4) uid = some u4
      exact find_user_setUser _ u4 u uid
        (huid.trans (find_user_uid s uid u hu)) hu
    · rw [hbal _ hcur]
      exact getA_setA_self _ _ _

/-- Concrete fixtures for C2: an active mission whose giver (character
7) was never encountered by the player. -/
def mC2 : Mission :=
  { id := 2, user_id := "bob", title := "T2", giver_id := some 7,
    reward_currency := "💵", reward_amount := 10, difficulty := "easy" }

/-- C2 player: no encountered characters at all. -/
def pC2 : UserProgress := { user_id := "bob", currency_balances := [("💵", 0)] }

/-- C2 game state. -/
def sC2 : GameState := { missions := [mC2], users := [pC2] }

/-- C2 counterexample: at `sC2` the +2 giver relationship sub-step
cannot complete (character 7 was never encountered, so the relationship
operation returns failure), yet the completion does not abort: the call
returns success, the mission's status becomes `completed` rather than
remaining `active`, and the currency credit persists — refuting the
claim that if any required sub-step cannot complete, no sub-effect
persists and the status remains `active`. -/
theorem C2_counterexample :
    (change_character_relationship pC2 7 2
        (some "Successfully completed mission: T2")).1 = false
    ∧ (complete_mission sC2 2 "bob").map (fun r => (r.1,
        (get_mission_by_id r.2 2).map Mission.status,
        (find_user r.2 "bob").map fun u2 => getA u2.currency_balances "💵" 0))
      = some (true, some "completed", some 10) :=
  ⟨by decide, by decide⟩

/-- C2 witness: the best-effort completion spec at the concrete state. -/
theorem C2_witness : BestEffortCompletionSpec sC2 2 "bob" mC2 pC2 :=
  C2_completion_best_effort sC2 2 "bob" mC2 pC2 (by decide) (by decide) (by decide)
    (by decide) (fun gid hg => rfl) (fun tid ht => nomatch ht) (by decide)

/-- Concrete fixtures for C1: an active easy mission rewarding 100
dollars, and its player at level 1 with 0 XP (so the +50 XP grant causes
no level-up and the ledger stays untouched by leveling). -/
def mC1 : Mission :=
  { id := 1, user_id := "alice", title := "T",
    reward_currency := "💵", reward_amount := 100, difficulty := "easy" }

/-- C1 player. -/
def pC1 : UserProgress := { user_id := "alice", currency_balances := [("💵", 50)] }

/-- C1 game state with an empty ledger. -/
def sC1 : GameState := { missions := [mC1], users := [pC1], ledger := [] }

/-- C1: completing the mission credits the 100 💵 reward by direct
mutation of the player's balance (50 → 150) while appending no ledger
entry at all — the ledger stays empty, and in particular holds no
`mission_reward` transaction, so this balance change has no
corresponding ledger entry. -/
theorem C1_reward_credited_without_ledger_entry :
    (complete_mission sC1 1 "alice").map (fun r => (r.1,
      (find_user r.2 "alice").map (fun u2 => getA u2.currency_balances "💵" 0),
      r.2.ledger))
    = some (true, some 150, ([] : List Transaction)) := by decide

/-- Single evolution record fixture for the C9 counterexample: only the
target (character 2) has an evolution record; the protagonist
(character 1) has none. -/
def ceC9 : CharacterEvolution := { character_id := 2 }

/-- The C9 counterexample batch: one entry for target `"2"`. -/
def cdC9 : ChangeData := { change_type := some "friend", amount := some 3 }

/-- C9 counterexample: with the target present in the evolution set but
the protagonist absent, the batch update writes only the
target→protagonist edge; no protagonist→target edge is written anywhere
(there is no record under the protagonist's key at all), refuting `for
every target id present ... both directed edges are written`. -/
theorem C9_counterexample :
    update_character_relationships [ceC9] 1 [("2", cdC9)]
      = [("2", { character_id := 2, relationship_network := [("1", { rel_type := "friend", strength := 3 })] })]
    ∧ lookupA (update_character_relationships [ceC9] 1 [("2", cdC9)]) "1" = none :=
  ⟨by decide, by decide⟩

/-- C9 amended: the batch update folds `process_change` over the
entries, starting from the map of evolution records; a target absent
from the map is skipped (the batch proceeds); for a target present in
the map, when the protagonist is also present both directed edges are
written (protagonist→target with the type and amount, defaulting to
`"neutral"` and 0, and target→protagonist with the inverse type and
amount, defaulting to the forward values), but when the protagonist is
absent only the target→protagonist edge is written and no protagonist
record appears. -/
theorem C9_bidirectional_batch (protagonist_id : Nat)
    (ces : List CharacterEvolution) (changes : List (String × ChangeData)) :
    update_character_relationships ces protagonist_id changes
      = changes.foldl (process_change protagonist_id)
          (ces.foldl (fun m ce => setA m (toString ce.character_id) ce) [])
    ∧ (∀ m tc, lookupA m tc.1 = none → process_change protagonist_id m tc = m)
    ∧ (∀ m (tc : String × ChangeData) tce pce,
        lookupA m tc.1 = some tce →
        lookupA m (toString protagonist_id) = some pce →
        tc.1 ≠ toString protagonist_id →
          (∃ pce2, lookupA (process_change protagonist_id m tc)
              (toString protagonist_id) = some pce2
            ∧ lookupA pce2.relationship_network tc.1
                = some { rel_type := tc.2.change_type.getD "neutral",
                         strength := (tc.2.amount).getD 0 })
          ∧ (∃ tce2, lookupA (process_change protagonist_id m tc) tc.1 = some tce2
            ∧ lookupA tce2.relationship_network (toString protagonist_id)
                = some { rel_type := tc.2.inverse_type.getD (tc.2.change_type.getD "neutral"),
                         strength := (tc.2.inverse_amount).getD ((tc.2.amount).getD 0) }))
    ∧ (∀ m (tc : String × ChangeData) tce,
        lookupA m tc.1 = some tce →
        lookupA m (toString protagonist_id) = none →
          lookupA (process_change protagonist_id m tc) (toString protagonist_id) = none
          ∧ ∃ tce2, lookupA (process_change protagonist_id m tc) tc.1 = some tce2
            ∧ lookupA tce2.relationship_network (toString protagonist_id)
                = some { rel_type := tc.2.inverse_type.getD (tc.2.change_type.getD "neutral"),
                         strength := (tc.2.inverse_amount).getD ((tc.2.amount).getD 0) }) := by
  refine ⟨rfl, ?_, ?_, ?_⟩
  · intro m tc h
    unfold process_change
    rw [h]
  · intro m tc tce pce htce hp hne
    have hres : process_change protagonist_id m tc
        = setA (setA m (toString protagonist_id)
            (add_relationship pce tc.1 (tc.2.change_type.getD "neutral")
              ((tc.2.amount).getD 0)))
          tc.1
          (add_relationship tce (toString protagonist_id)
            (tc.2.inverse_type.getD (tc.2.change_type.getD "neutral"))
            ((tc.2.inverse_amount).getD ((tc.2.amount).getD 0))) := by
      simp only [process_change, updateRelInMap, htce, hp, Option.isSome_some,
        if_true, lookupA_setA_ne _ _ _ _ hne]
    rw [hres]
    constructor
    · refine ⟨add_relationship pce tc.1 (tc.2.change_type.getD "neutral")
          ((tc.2.amount).getD 0), ?_, ?_⟩
      · rw [lookupA_setA_ne _ _ _ _ (Ne.symm hne), lookupA_setA_self]
      · unfold add_relationship
        dsimp only []
        exact lookupA_setA_self _ _ _
    · refine ⟨add_relationship tce (toString protagonist_id)
          (tc.2.inverse_type.getD (tc.2.change_type.getD "neutral"))
          ((tc.2.inverse_amount).getD ((tc.2.amount).getD 0)),
        lookupA_setA_self _ _ _, ?_⟩
      unfold add_relationship
      dsimp only []
      exact lookupA_setA_self _ _ _
  · intro m tc tce htce hp
    have hne : tc.1 ≠ toString protagonist_id := by
      intro hh
      rw [hh] at htce
      rw [htce] at hp
      cases hp
    have hres : process_change protagonist_id m tc
        = setA m tc.1
          (add_relationship tce (toString protagonist_id)
            (tc.2.inverse_type.getD (tc.2.change_type.getD "neutral"))
            ((tc.2.inverse_amount).getD ((tc.2.amount).getD 0))) := by
      simp only [process_change, updateRelInMap, htce, hp, Option.isSome_none,
        Bool.false_eq_true, if_false]
    rw [hres]
    refine ⟨?_, add_relationship tce (toString protagonist_id)
        (tc.2.inverse_type.getD (tc.2.change_type.getD "neutral"))
        ((tc.2.inverse_amount).getD ((tc.2.amount).getD 0)),
      lookupA_setA_self _ _ _, ?_⟩
    · rw [lookupA_setA_ne _ _ _ _ (Ne.symm hne)]
      exact hp
    · unfold add_relationship
      dsimp only []
      exact lookupA_setA_self _ _ _

/-- Two-record map fixture for the C9 witness: protagonist (1) and
target (2) both present. -/
def mapC9 : List (String × CharacterEvolution) :=
  [("1", { character_id := 1 }), ("2", { character_id := 2 })]

/-- C9 witness: on a map holding both records, processing the entry for
target `"2"` writes both directed edges with the resolved defaults. -/
theorem C9_witness :
    (∃ pce2, lookupA (process_change 1 mapC9 ("2", cdC9)) (toString 1) = some pce2
      ∧ lookupA pce2.relationship_network "2"
          = some { rel_type := "friend", strength := 3 })
    ∧ (∃ tce2, lookupA (process_change 1 mapC9 ("2", cdC9)) "2" = some tce2
      ∧ lookupA tce2.relationship_network (toString 1)
          = some { rel_type := "friend", strength := 3 }) :=
  (C9_bidirectional_batch 1 [] []).2.2.1 mapC9 ("2", cdC9)
    { character_id := 2 } { character_id := 1 } (by decide) (by decide) (by decide)
